import Mathlib

/-!
Verification development for `brave_wayback_machine_infobar_view.cc`
(brave-core): a browser infobar that, on a button press, queries the
Internet Archive availability endpoint for the current tab URL, parses
the JSON response, and either navigates to the archived snapshot and
removes the infobar, or toggles the view to a failure control set.

The C++ file is shallowly embedded below.  External library behaviour
(`base::Value`, `base::JSONReader`, `views::View::SetVisible`,
`ui::ThemeProvider`) is modelled by its documented semantics:
`base::Value::FindPath` splits a dotted path on "." and walks nested
dictionaries; `base::Value::GetString` CHECK-fails when the value is
not a string; `base::JSONReader::Read` returns an optional parsed
value and is kept as a parameter `read` of the handler, since parsing
itself is outside this repository.
-/

namespace WaybackInfobar

/-- `base::Value` as produced by `base::JSONReader` (external library).
`num` covers the numeric values (int/double) — only their not being a
string or dictionary matters here; `blob` values are likewise absorbed
into the non-string, non-dict constructors for the same reason. -/
inductive JSON where
  | null
  | boolean (b : Bool)
  | num (n : Int)
  | str (s : String)
  | list (xs : List JSON)
  | dict (kvs : List (String × JSON))

/-- `base::Value::is_string()`. -/
def JSON.is_string : JSON → Bool
  | .str _ => true
  | _ => false

/-- Dictionary key lookup of `base::Value::FindKey` (keys are unique in a
parsed dictionary, so first-match lookup is faithful). -/
def findKey : List (String × JSON) → String → Option JSON
  | [], _ => none
  | (k, v) :: rest, key => if k = key then some v else findKey rest key

/-- Path traversal over already-split path components: each component is a
dictionary key; a non-dictionary intermediate value fails the lookup. -/
def JSON.findPathList : JSON → List String → Option JSON
  | v, [] => some v
  | v, k :: ks =>
    match v with
    | .dict kvs =>
      match findKey kvs k with
      | some w => w.findPathList ks
      | none => none
    | _ => none

/-- Splitting a dotted path into its components, as
`base::Value::FindPath` does on the "." separator. -/
def splitPathAux : List Char → List Char → List String
  | [], acc => [String.mk acc.reverse]
  | c :: cs, acc =>
    if c = '.' then String.mk acc.reverse :: splitPathAux cs []
    else splitPathAux cs (c :: acc)

/-- The component list of a dotted path. -/
def splitPath (path : String) : List String :=
  splitPathAux path.data []

/-- `base::Value::FindPath(path)`: splits the dotted path on "." and
traverses nested dictionaries. -/
def JSON.findPath (v : JSON) (path : String) : Option JSON :=
  v.findPathList (splitPath path)

/-- `base::Value::GetString()`: the string payload when the value is a
string; the `none` case corresponds to the `CHECK(is_string())` failure
in the external library. -/
def JSON.getString : JSON → Option String
  | .str s => some s
  | _ => none

/-- `kWaybackQueryURL` (line 40). -/
def kWaybackQueryURL : String := "https://archive.org/wayback/available?url="

/-- `kMaxBodySize` (line 42). -/
def kMaxBodySize : Int := 1024 * 1024

/-- The dotted path looked up in `OnWaybackURLFetched` (lines 285, 290). -/
def waybackPath : String := "archived_snapshots.closest.url"

/-- Color identifiers: values of the external `ThemeProperties` enum used
by this file; their numeric values are not observable here. -/
inductive ColorId where
  | COLOR_INFOBAR
  | COLOR_BOOKMARK_TEXT
  deriving DecidableEq, Repr

/-- `kInfoBarLabelBackgroundColor` (line 45). -/
def kInfoBarLabelBackgroundColor : ColorId := .COLOR_INFOBAR

/-- `kInfoBarLabelTextColor` (line 46). -/
def kInfoBarLabelTextColor : ColorId := .COLOR_BOOKMARK_TEXT

/-- `gfx::kPlaceholderColor` (external, `ui/gfx/color_palette.h`):
SK_ColorMAGENTA, 0xFFFF00FF as an ARGB word. -/
def kPlaceholderColor : Nat := 0xFFFF00FF

/-- A theme provider, when attached, resolves a color id to an SkColor
(`ui::ThemeProvider::GetColor`). `GetThemeProvider()` returns null while
the view is not in a widget, hence the `Option`. -/
def ThemeProvider := Option (ColorId → Nat)

/-- `InfoBarViewSubViews::GetColor` (lines 216-220). -/
def GetColor (theme_provider : ThemeProvider) (id : ColorId) : Nat :=
  match theme_provider with
  | some tp => tp id
  | none => kPlaceholderColor

/-- The observable fields of a `views::Label` that `CreateLabel` sets. -/
structure LabelView where
  text : String
  background_color : Nat
  enabled_color : Nat
  deriving DecidableEq, Repr

/-- `InfoBarViewSubViews::CreateLabel` (lines 200-207). -/
def CreateLabel (theme_provider : ThemeProvider) (text : String) : LabelView :=
  { text := text
    background_color := GetColor theme_provider kInfoBarLabelBackgroundColor
    enabled_color := GetColor theme_provider kInfoBarLabelTextColor }

/-- Visibility state of the sub-views: one `Bool` (visible flag) per view
in each of the two control sets, in the order the views are pushed in
`InitializeChildren`.  `views_visible_before_checking_` holds the
page-missing label, the ask-about-check label, the placeholder view and
the check button; `views_visible_after_checking_` holds the
not-available label and the sad icon. -/
structure SubViews where
  views_visible_before_checking_ : List Bool
  views_visible_after_checking_ : List Bool
  deriving DecidableEq, Repr

/-- `InfoBarViewSubViews::UpdateChildrenVisibility` (lines 209-214):
`SetVisible(show_before_checking_views)` on every view of the before set
and `SetVisible(!show_before_checking_views)` on every view of the after
set. -/
def UpdateChildrenVisibility (s : SubViews) (show_before_checking_views : Bool) :
    SubViews :=
  { views_visible_before_checking_ :=
      s.views_visible_before_checking_.map fun _ => show_before_checking_views
    views_visible_after_checking_ :=
      s.views_visible_after_checking_.map fun _ => !show_before_checking_views }

/-- `InfoBarViewSubViews::InitializeChildren` (lines 109-198): the before
set receives the bold page-missing label, the ask label, the placeholder
view and the check button; the after set receives the not-available label
and the sad icon.  Views are created visible (toolkit default), and the
function ends with `UpdateChildrenVisibility(true)` (line 197). -/
def InitializeChildren : SubViews :=
  UpdateChildrenVisibility
    { views_visible_before_checking_ := [true, true, true, true]
      views_visible_after_checking_ := [true, true] }
    true

/-- `InfoBarViewSubViews::OnWaybackURLFetchFailed` (lines 101-103). -/
def OnWaybackURLFetchFailed (s : SubViews) : SubViews :=
  UpdateChildrenVisibility s false

/-- Outcome of one run of `OnWaybackURLFetched`:
`fetchFailed` = the failure toggle (`OnWaybackURLFetchFailed`);
`navigateAndRemove url` = `LoadURL(url)` followed by `RemoveInfoBar`;
`checkFailed` = the `CHECK(is_string())` failure inside
`base::Value::GetString` on a present but non-string path value. -/
inductive FetchOutcome where
  | fetchFailed
  | navigateAndRemove (url : String)
  | checkFailed
  deriving DecidableEq, Repr

/-- `BraveWaybackMachineInfoBarView::OnWaybackURLFetched` (lines 276-293),
with `base::JSONReader::Read` passed in as `read` and the response body as
`Option String` (`std::unique_ptr<std::string>`). -/
def OnWaybackURLFetched (read : String → Option JSON)
    (response_body : Option String) : FetchOutcome :=
  match response_body with
  | none => .fetchFailed
  | some wayback_response_json =>
    match read wayback_response_json with
    | none => .fetchFailed
    | some result =>
      match result.findPath waybackPath with
      | none => .fetchFailed
      | some v =>
        match v.getString with
        | some s => .navigateAndRemove s
        | none => .checkFailed

/-- A resource request as configured by `FetchWaybackURL`: its URL string
and the download size limit handed to
`SimpleURLLoader::DownloadToString`. -/
structure Request where
  url : String
  max_body_size : Int
  deriving DecidableEq, Repr

/-- Observable state of one infobar instance and its tab: the sub-views'
visibility, the spec of the tab's visible URL
(`contents_->GetVisibleURL().spec()`), the outbound requests issued so
far, the `LoadURL` navigations performed so far, and whether the infobar
has been removed. -/
structure BrowserState where
  sub_views : SubViews
  visible_url_spec : String
  requests : List Request
  navigations : List String
  infobar_removed : Bool
  deriving DecidableEq, Repr

/-- `BraveWaybackMachineInfoBarView::FetchWaybackURL` (lines 262-274):
builds one request whose URL is `kWaybackQueryURL` concatenated with the
visible URL's spec, and starts it with download limit `kMaxBodySize`. -/
def FetchWaybackURL (s : BrowserState) : BrowserState :=
  { s with requests :=
      s.requests ++
        [{ url := kWaybackQueryURL ++ s.visible_url_spec
           max_body_size := kMaxBodySize }] }

/-- `BraveWaybackMachineInfoBarView::LoadURL` (lines 295-303): navigates
the tab's controller to the fetched wayback URL. -/
def LoadURL (s : BrowserState) (last_wayback_url : String) : BrowserState :=
  { s with navigations := s.navigations ++ [last_wayback_url] }

/-- The two externally triggered operations: the check button press
(`InfoBarViewSubViews::ButtonPressed`, lines 97-99) and the completion of
an outstanding fetch (`OnWaybackURLFetched` invoked by the URL loader with
the response body). -/
inductive Event where
  | buttonPressed
  | fetchCompleted (response_body : Option String)

/-- One transition of the infobar: a button press runs `FetchWaybackURL`;
a fetch completion runs `OnWaybackURLFetched`, which either toggles the
views to the failure set, or navigates via `LoadURL` and removes the
infobar; a `CHECK` failure kills the process, so no further observable
state change occurs. -/
def step (read : String → Option JSON) (e : Event) (s : BrowserState) :
    BrowserState :=
  match e with
  | .buttonPressed => FetchWaybackURL s
  | .fetchCompleted response_body =>
    match OnWaybackURLFetched read response_body with
    | .fetchFailed => { s with sub_views := OnWaybackURLFetchFailed s.sub_views }
    | .navigateAndRemove url => { LoadURL s url with infobar_removed := true }
    | .checkFailed => s

/-- Initial state of a freshly constructed infobar on a tab whose visible
URL spec is `url0`: the sub-views come out of `InitializeChildren`, no
request, no navigation, the infobar present. -/
def initialState (url0 : String) : BrowserState :=
  { sub_views := InitializeChildren
    visible_url_spec := url0
    requests := []
    navigations := []
    infobar_removed := false }

/-- States reachable from construction by button presses and fetch
completions. -/
inductive Reachable (read : String → Option JSON) (url0 : String) :
    BrowserState → Prop
  | init : Reachable read url0 (initialState url0)
  | next {s : BrowserState} (e : Event) :
      Reachable read url0 s → Reachable read url0 (step read e s)

/-- The branch condition of the failure path in `OnWaybackURLFetched`
(lines 278 and 285): body absent, or the body does not parse, or the
parsed value lacks the wayback path. -/
def FetchFailCondition (read : String → Option JSON)
    (response_body : Option String) : Bool :=
  match response_body with
  | none => true
  | some body =>
    match read body with
    | none => true
    | some result =>
      match result.findPath waybackPath with
      | none => true
      | some _ => false

/-! Concrete data used to evaluate the model: a well-formed availability
response, a response whose `url` field is a number rather than a string,
and two responses that agree on the wayback path but differ elsewhere.
The `read*` functions record the value of the external
`base::JSONReader::Read` on these specific bodies. -/

/-- A wayback snapshot URL used in concrete instances. -/
def goodURL : String := "https://web.archive.org/web/2019/https://example.com/"

/-- The parse of `goodBody`. -/
def goodJSON : JSON :=
  .dict [("archived_snapshots",
          .dict [("closest", .dict [("url", .str goodURL)])])]

/-- A well-formed availability response body. -/
def goodBody : String :=
  "\x7b\"archived_snapshots\": \x7b\"closest\": \x7b\"url\": \"https://web.archive.org/web/2019/https://example.com/\"\x7d\x7d\x7d"

/-- `base::JSONReader::Read` restricted to `goodBody`. -/
def readGood : String → Option JSON :=
  fun s => if s = goodBody then some goodJSON else none

/-- The parse of `cexBody`: the wayback path is present but holds the
number 5, not a string. -/
def cexJSON : JSON :=
  .dict [("archived_snapshots",
          .dict [("closest", .dict [("url", .num 5)])])]

/-- A response body whose `archived_snapshots.closest.url` field is a
JSON number. -/
def cexBody : String :=
  "\x7b\"archived_snapshots\": \x7b\"closest\": \x7b\"url\": 5\x7d\x7d\x7d"

/-- `base::JSONReader::Read` restricted to `cexBody`. -/
def readCex : String → Option JSON :=
  fun s => if s = cexBody then some cexJSON else none

/-- Parse of a response that also reports a timestamp next to the url. -/
def agreeJSON1 : JSON :=
  .dict [("archived_snapshots",
          .dict [("closest",
                  .dict [("url", .str goodURL),
                         ("timestamp", .str "20190101000000")])])]

/-- Parse of a response with an extra top-level status field and the same
url. -/
def agreeJSON2 : JSON :=
  .dict [("status", .str "200"),
         ("archived_snapshots",
          .dict [("closest", .dict [("url", .str goodURL)])])]

/-- A parser instance mapping two distinct bodies to `agreeJSON1` and
`agreeJSON2`. -/
def readAgree : String → Option JSON :=
  fun s =>
    if s = "with-timestamp" then some agreeJSON1
    else if s = "with-status" then some agreeJSON2
    else none

/-- `UpdateChildrenVisibility` makes every view of the before-checking set
have visibility `b` and every view of the after-checking set have
visibility `!b`. -/
theorem update_children_visibility_uniform (s : SubViews) (b : Bool) :
    (∀ x ∈ (UpdateChildrenVisibility s b).views_visible_before_checking_, x = b) ∧
    (∀ x ∈ (UpdateChildrenVisibility s b).views_visible_after_checking_, x = !b) := by
  constructor <;> intro x hx <;>
    simp only [UpdateChildrenVisibility, List.mem_map] at hx <;>
    obtain ⟨_, _, rfl⟩ := hx <;> rfl

/-- A fetch completion never changes the request log, whatever the
outcome. -/
theorem fetch_completion_requests_unchanged (read : String → Option JSON)
    (response_body : Option String) (s : BrowserState) :
    (step read (.fetchCompleted response_body) s).requests = s.requests := by
  cases hOut : OnWaybackURLFetched read response_body <;>
    simp [step, hOut, LoadURL]

/-- C1 (amended): if the response body is present, parses to `r`, and `r`
holds the string `url` at the path `archived_snapshots.closest.url`, then
`OnWaybackURLFetched` navigates to `url` via `LoadURL` and removes the
infobar, leaving the sub-views (hence the failure control set) untouched. -/
theorem c1_success_navigates_and_removes (read : String → Option JSON)
    (body url : String) (r : JSON)
    (hread : read body = some r)
    (hpath : r.findPath waybackPath = some (JSON.str url)) :
    OnWaybackURLFetched read (some body) = .navigateAndRemove url ∧
    ∀ s : BrowserState,
      step read (.fetchCompleted (some body)) s =
        { s with navigations := s.navigations ++ [url],
                 infobar_removed := true } := by
  have hout : OnWaybackURLFetched read (some body) = .navigateAndRemove url := by
    simp [OnWaybackURLFetched, hread, hpath, JSON.getString]
  exact ⟨hout, fun s => by simp [step, hout, LoadURL]⟩

/-- C1 witness: on the well-formed response `goodBody`, the handler
navigates to the snapshot URL and removes the infobar. -/
theorem c1_success_navigates_and_removes_witness :
    OnWaybackURLFetched readGood (some goodBody) =
      .navigateAndRemove "https://web.archive.org/web/2019/https://example.com/" ∧
    step readGood (.fetchCompleted (some goodBody)) (initialState "https://example.com/") =
      { initialState "https://example.com/" with
          navigations := ["https://web.archive.org/web/2019/https://example.com/"],
          infobar_removed := true } := by
  have h := c1_success_navigates_and_removes readGood goodBody
    "https://web.archive.org/web/2019/https://example.com/" goodJSON rfl rfl
  exact ⟨h.1, h.2 (initialState "https://example.com/")⟩

/-- C1 counterexample: the response `cexBody` is present, parses, and
contains the path `archived_snapshots.closest.url` (holding the number 5),
yet the handler neither navigates (it hits the `CHECK(is_string())`
failure in `GetString`) nor removes the infobar. -/
theorem c1_counterexample :
    (readCex cexBody).isSome = true ∧
    (cexJSON.findPath waybackPath).isSome = true ∧
    OnWaybackURLFetched readCex (some cexBody) = .checkFailed ∧
    (step readCex (.fetchCompleted (some cexBody))
        (initialState "https://example.com/")).navigations = [] ∧
    (step readCex (.fetchCompleted (some cexBody))
        (initialState "https://example.com/")).infobar_removed = false :=
  ⟨rfl, rfl, rfl, rfl, rfl⟩

/-- C2 (amended): the handler toggles the view to the failure control set
exactly when `FetchFailCondition` holds (body absent, unparseable, or path
missing), and in those cases the only state change is the visibility
toggle: no request, no navigation, no infobar removal. -/
theorem c2_failure_toggle_iff (read : String → Option JSON)
    (response_body : Option String) (s : BrowserState) :
    (OnWaybackURLFetched read response_body = .fetchFailed ↔
      FetchFailCondition read response_body = true) ∧
    (FetchFailCondition read response_body = true →
      step read (.fetchCompleted response_body) s =
        { s with sub_views := OnWaybackURLFetchFailed s.sub_views }) := by
  have hiff : OnWaybackURLFetched read response_body = .fetchFailed ↔
      FetchFailCondition read response_body = true := by
    cases response_body with
    | none => simp [OnWaybackURLFetched, FetchFailCondition]
    | some body =>
      cases hr : read body with
      | none => simp [OnWaybackURLFetched, FetchFailCondition, hr]
      | some result =>
        cases hp : result.findPath waybackPath with
        | none => simp [OnWaybackURLFetched, FetchFailCondition, hr, hp]
        | some v =>
          cases v <;>
            simp [OnWaybackURLFetched, FetchFailCondition, hr, hp, JSON.getString]
  refine ⟨hiff, fun hc => ?_⟩
  have hout : OnWaybackURLFetched read response_body = .fetchFailed := hiff.mpr hc
  simp [step, hout]

/-- C2 witness: an unparseable body toggles the view to the failure set
and changes nothing else. -/
theorem c2_failure_toggle_iff_witness :
    step (fun _ => none) (.fetchCompleted (some "this is not json"))
        (initialState "https://example.com/") =
      { initialState "https://example.com/" with
          sub_views :=
            OnWaybackURLFetchFailed (initialState "https://example.com/").sub_views } :=
  (c2_failure_toggle_iff (fun _ => none) (some "this is not json")
    (initialState "https://example.com/")).2 rfl

/-- C2 counterexample: on `cexBody` no navigation occurs and the infobar
is not removed, yet the response is present, parses, and contains the
path — so "no navigation and no removal happen in exactly the failure
cases" is false: the handler falls into the `CHECK` failure instead,
without toggling the view either. -/
theorem c2_counterexample :
    FetchFailCondition readCex (some cexBody) = false ∧
    OnWaybackURLFetched readCex (some cexBody) ≠ .fetchFailed ∧
    (step readCex (.fetchCompleted (some cexBody))
        (initialState "https://example.com/")).navigations = [] ∧
    (step readCex (.fetchCompleted (some cexBody))
        (initialState "https://example.com/")).infobar_removed = false ∧
    (step readCex (.fetchCompleted (some cexBody))
        (initialState "https://example.com/")).sub_views =
      (initialState "https://example.com/").sub_views :=
  ⟨rfl, by decide, rfl, rfl, rfl⟩

/-- C5: the code treats mere presence of `archived_snapshots.closest.url`
as success and calls `GetString` on the value; on `cexBody` the path is
present but holds the number 5, which is not a string, so `GetString`
reaches its `CHECK(is_string())` failure: presence of the path does not
imply string-typedness. -/
theorem c5_presence_does_not_imply_string :
    cexJSON.findPath waybackPath = some (JSON.num 5) ∧
    (JSON.num 5).is_string = false ∧
    (JSON.num 5).getString = none ∧
    OnWaybackURLFetched readCex (some cexBody) = .checkFailed :=
  ⟨rfl, rfl, rfl, rfl⟩

/-- C3: a button press issues exactly one outbound request, appended to
the request log, whose URL is the fixed prefix `kWaybackQueryURL`
concatenated with the spec of the tab's current visible URL (and whose
download limit is `kMaxBodySize`). -/
theorem c3_button_press_single_request (read : String → Option JSON)
    (s : BrowserState) :
    (step read .buttonPressed s).requests =
      s.requests ++
        [{ url := kWaybackQueryURL ++ s.visible_url_spec,
           max_body_size := kMaxBodySize }] := rfl

/-- C4: in every reachable state, all views of the before-checking set
share one visibility `b` and all views of the after-checking set have the
opposite visibility `!b`; consequently the two sets are never both
visible.  Moreover every visibility change goes through
`UpdateChildrenVisibility`, which sets one whole set visible and the other
whole set invisible. -/
theorem c4_visibility_sets_mutually_exclusive (read : String → Option JSON)
    (url0 : String) (s : BrowserState) (h : Reachable read url0 s) :
    (∃ b : Bool,
      (∀ x ∈ s.sub_views.views_visible_before_checking_, x = b) ∧
      (∀ x ∈ s.sub_views.views_visible_after_checking_, x = !b)) ∧
    ¬(true ∈ s.sub_views.views_visible_before_checking_ ∧
      true ∈ s.sub_views.views_visible_after_checking_) := by
  have main : ∃ b : Bool,
      (∀ x ∈ s.sub_views.views_visible_before_checking_, x = b) ∧
      (∀ x ∈ s.sub_views.views_visible_after_checking_, x = !b) := by
    induction h with
    | init =>
      exact ⟨true, update_children_visibility_uniform _ true⟩
    | next e _ ih =>
      cases e with
      | buttonPressed =>
        simpa [step, FetchWaybackURL] using ih
      | fetchCompleted response_body =>
        cases hOut : OnWaybackURLFetched read response_body with
        | fetchFailed =>
          exact ⟨false, by
            simpa [step, hOut, OnWaybackURLFetchFailed] using
              update_children_visibility_uniform _ false⟩
        | navigateAndRemove url =>
          simpa [step, hOut, LoadURL] using ih
        | checkFailed =>
          simpa [step, hOut] using ih
  refine ⟨main, ?_⟩
  rintro ⟨hb, ha⟩
  obtain ⟨b, h1, h2⟩ := main
  have hb' := h1 _ hb
  have ha' := h2 _ ha
  cases b
  · exact absurd hb' (by simp)
  · exact absurd ha' (by simp)

/-- C4 witness: after construction and one failed fetch, the two control
sets still have opposite visibility and are not both visible. -/
theorem c4_visibility_sets_mutually_exclusive_witness :
    ¬(true ∈ (step (fun _ => none) (.fetchCompleted none)
        (initialState "https://example.com/")).sub_views.views_visible_before_checking_ ∧
      true ∈ (step (fun _ => none) (.fetchCompleted none)
        (initialState "https://example.com/")).sub_views.views_visible_after_checking_) :=
  (c4_visibility_sets_mutually_exclusive (fun _ => none) "https://example.com/"
    (step (fun _ => none) (.fetchCompleted none) (initialState "https://example.com/"))
    (Reachable.next (.fetchCompleted none) Reachable.init)).2

/-- C6: the download limit is exactly 1 MiB: `kMaxBodySize` is
1024 * 1024 = 1048576 bytes, and every request in the log of any
reachable state carries this limit. -/
theorem c6_download_limit_one_mib (read : String → Option JSON)
    (url0 : String) (s : BrowserState) (h : Reachable read url0 s) :
    kMaxBodySize = 1048576 ∧
    ∀ r ∈ s.requests, r.max_body_size = 1048576 := by
  refine ⟨rfl, ?_⟩
  induction h with
  | init =>
    intro r hr
    simp [initialState] at hr
  | next e _ ih =>
    cases e with
    | buttonPressed =>
      intro r hr
      simp only [step, FetchWaybackURL, List.mem_append, List.mem_singleton] at hr
      rcases hr with hr | hr
      · exact ih r hr
      · subst hr; rfl
    | fetchCompleted response_body =>
      intro r hr
      rw [fetch_completion_requests_unchanged] at hr
      exact ih r hr

/-- C6 witness: after one button press from the initial state, the single
outstanding request has the 1 MiB limit. -/
theorem c6_download_limit_one_mib_witness :
    kMaxBodySize = 1048576 ∧
    ∀ r ∈ (step (fun _ => none) .buttonPressed
        (initialState "https://example.com/")).requests,
      r.max_body_size = 1048576 :=
  c6_download_limit_one_mib (fun _ => none) "https://example.com/"
    (step (fun _ => none) .buttonPressed (initialState "https://example.com/"))
    (Reachable.next .buttonPressed Reachable.init)

/-- C7: the handler's outcome depends only on whether the body parses and
on the value found at `archived_snapshots.closest.url`: two bodies that
agree on both give the same outcome and the same state transition. -/
theorem c7_outcome_depends_only_on_path (read : String → Option JSON)
    (b1 b2 : String)
    (hparse : (read b1).isSome = (read b2).isSome)
    (hpath : (read b1).bind (fun r => r.findPath waybackPath) =
             (read b2).bind (fun r => r.findPath waybackPath)) :
    OnWaybackURLFetched read (some b1) = OnWaybackURLFetched read (some b2) ∧
    ∀ s : BrowserState,
      step read (.fetchCompleted (some b1)) s =
        step read (.fetchCompleted (some b2)) s := by
  have hout : OnWaybackURLFetched read (some b1) =
      OnWaybackURLFetched read (some b2) := by
    cases h1 : read b1 with
    | none =>
      cases h2 : read b2 with
      | none => simp [OnWaybackURLFetched, h1, h2]
      | some r2 => rw [h1, h2] at hparse; simp at hparse
    | some r1 =>
      cases h2 : read b2 with
      | none => rw [h1, h2] at hparse; simp at hparse
      | some r2 =>
        rw [h1, h2] at hpath
        simp only [Option.some_bind] at hpath
        simp [OnWaybackURLFetched, h1, h2, hpath]
  exact ⟨hout, fun s => by simp [step, hout]⟩

/-- C7 witness: a response with an extra timestamp field and a response
with an extra status field, sharing the same snapshot URL, produce the
same outcome. -/
theorem c7_outcome_depends_only_on_path_witness :
    OnWaybackURLFetched readAgree (some "with-timestamp") =
      OnWaybackURLFetched readAgree (some "with-status") :=
  (c7_outcome_depends_only_on_path readAgree "with-timestamp" "with-status"
    rfl rfl).1

/-- C8: no retry: a fetch completion never adds a request; the failure
path changes only the sub-views' visibility; and any event that changes
the request log is a button press. -/
theorem c8_no_retry (read : String → Option JSON)
    (response_body : Option String) (s : BrowserState) :
    (step read (.fetchCompleted response_body) s).requests = s.requests ∧
    (OnWaybackURLFetched read response_body = .fetchFailed →
      step read (.fetchCompleted response_body) s =
        { s with sub_views := OnWaybackURLFetchFailed s.sub_views }) ∧
    (∀ e : Event, (step read e s).requests ≠ s.requests → e = .buttonPressed) := by
  refine ⟨fetch_completion_requests_unchanged read response_body s, ?_, ?_⟩
  · intro hout
    simp [step, hout]
  · intro e he
    cases e with
    | buttonPressed => rfl
    | fetchCompleted b =>
      exact absurd (fetch_completion_requests_unchanged read b s) he

/-- C8 witness: a completion with an absent body performs no fetch and
only toggles the sub-views. -/
theorem c8_no_retry_witness :
    (step (fun _ => none) (.fetchCompleted none)
        (initialState "https://example.com/")).requests = [] ∧
    step (fun _ => none) (.fetchCompleted none)
        (initialState "https://example.com/") =
      { initialState "https://example.com/" with
          sub_views :=
            OnWaybackURLFetchFailed (initialState "https://example.com/").sub_views } :=
  ⟨(c8_no_retry (fun _ => none) none (initialState "https://example.com/")).1,
   (c8_no_retry (fun _ => none) none (initialState "https://example.com/")).2.1 rfl⟩

/-- C9: right after `InitializeChildren`, the four views of the
before-checking set are visible and the two views of the after-checking
set are hidden. -/
theorem c9_initial_visibility :
    InitializeChildren.views_visible_before_checking_ =
      [true, true, true, true] ∧
    InitializeChildren.views_visible_after_checking_ = [false, false] :=
  ⟨rfl, rfl⟩

/-- C10: color resolution is total: with a theme provider attached,
`GetColor` returns the provider's color; without one it returns the
placeholder color; `CreateLabel` resolves both of its colors through
`GetColor`, so label construction succeeds with or without a provider. -/
theorem c10_get_color_total :
    (∀ (tp : ColorId → Nat) (id : ColorId), GetColor (some tp) id = tp id) ∧
    (∀ id : ColorId, GetColor (none : ThemeProvider) id = kPlaceholderColor) ∧
    (∀ (tp : ThemeProvider) (text : String),
      (CreateLabel tp text).background_color =
        GetColor tp kInfoBarLabelBackgroundColor ∧
      (CreateLabel tp text).enabled_color =
        GetColor tp kInfoBarLabelTextColor) :=
  ⟨fun _ _ => rfl, fun _ => rfl, fun _ _ => ⟨rfl, rfl⟩⟩

end WaybackInfobar
